import Mathlib

/-!
# Verification of the misskey-bot event-processing and deduplication engine

Shallow embedding, in Lean 4, of the parts of the `oreeke/misskey-bot`
repository that the specification's testable properties talk about:

* `src/persistence.py` — the SQLite-backed durable dedup store
  (`mark_mention_processed`, `mark_message_processed`, the `UNIQUE`
  insert-or-ignore semantics);
* `src/plugin_manager.py` — `call_plugin_hook`, which sorts the enabled
  plugins by priority (descending) and invokes every hook, collecting
  the non-`None` results;
* `src/utils.py` / `src/deepseek_api.py` — the retry/backoff delay
  computation (`calculate_retry_delay` / `_calculate_retry_delay`) and
  the bounded retry loop (`retry_async`);
* `src/bot.py` — `_handle_mention`, `_handle_message`, `_auto_post`,
  `_reset_daily_post_count`, and the response-length truncation.

Python strings are modelled as `List Char` where their length/slicing
matters and as `String` where only identity matters; Python floats are
modelled as `ℚ` (the delay computations use only `+ * min max`, where
exact rational arithmetic matches the float computation's intent);
`random.random()` is modelled as an explicit parameter `r` with
`0 ≤ r < 1`.  SQLite tables are modelled as lists of records; the
`UNIQUE NOT NULL` column together with `INSERT OR IGNORE` is modelled
as insert-if-absent.
-/

/-! ## Durable dedup store (`src/persistence.py`)

The two tables `processed_mentions` and `processed_messages`.  A row of
`processed_mentions` carries `note_id` (UNIQUE NOT NULL), `user_id` and
`username` (both nullable); a row of `processed_messages` carries
`message_id` (UNIQUE NOT NULL), `user_id` and `chat_type`.  The
`processed_at` timestamp column plays no role in the claims settled
here and is omitted from the record. -/

structure MentionRecord where
  noteId : String
  userId : Option String
  username : Option String
  deriving Repr, DecidableEq

structure MessageRecord where
  messageId : String
  userId : Option String
  chatType : Option String
  deriving Repr, DecidableEq

/-- Number of rows of the `processed_mentions` table whose `note_id`
column equals `nid`. -/
def mentionCount (db : List MentionRecord) (nid : String) : Nat :=
  db.countP (fun r => r.noteId == nid)

/-- Number of rows of the `processed_messages` table whose `message_id`
column equals `mid`. -/
def messageCount (db : List MessageRecord) (mid : String) : Nat :=
  db.countP (fun r => r.messageId == mid)

/-- `PersistenceManager.is_mention_processed`: `SELECT 1 FROM
processed_mentions WHERE note_id = ? LIMIT 1` is non-empty. -/
def isMentionProcessed (db : List MentionRecord) (nid : String) : Bool :=
  db.any (fun r => r.noteId == nid)

/-- `PersistenceManager.is_message_processed`. -/
def isMessageProcessed (db : List MessageRecord) (mid : String) : Bool :=
  db.any (fun r => r.messageId == mid)

/-- `PersistenceManager.mark_mention_processed`: `INSERT OR IGNORE INTO
processed_mentions (note_id, user_id, username) VALUES (?, ?, ?)`.
The `UNIQUE` constraint on `note_id` makes the insert a no-op when a
row with this `note_id` already exists; the `sqlite3.Error` branch of
the Python code is caught (logged, rolled back) so the call never
raises — the function is total. -/
def markMentionProcessed (db : List MentionRecord) (nid : String)
    (userId : Option String) (username : Option String) : List MentionRecord :=
  if isMentionProcessed db nid then db
  else db ++ [⟨nid, userId, username⟩]

/-- `PersistenceManager.mark_message_processed` (same shape, table
`processed_messages`). -/
def markMessageProcessed (db : List MessageRecord) (mid : String)
    (userId : Option String) (chatType : Option String) : List MessageRecord :=
  if isMessageProcessed db mid then db
  else db ++ [⟨mid, userId, chatType⟩]

/-- `mark_mention_processed` when the underlying SQLite write fails:
the `except sqlite3.Error` branch logs, rolls the transaction back and
falls through, so the store is unchanged and the call still returns
normally.  `fails = false` is the committed path. -/
def markMentionProcessedF (fails : Bool) (db : List MentionRecord) (nid : String)
    (userId : Option String) (username : Option String) : List MentionRecord :=
  if fails then db else markMentionProcessed db nid userId username

/-- `mark_message_processed` with the same failure switch. -/
def markMessageProcessedF (fails : Bool) (db : List MessageRecord) (mid : String)
    (userId : Option String) (chatType : Option String) : List MessageRecord :=
  if fails then db else markMessageProcessed db mid userId chatType

/-! ## Plugin dispatch (`src/plugin_manager.py`)

`call_plugin_hook` filters the loaded plugins to the enabled ones,
sorts them by `priority` descending (`sorted(..., key=priority,
reverse=True)` — a stable sort), then invokes the hook of every plugin
in that order, collecting each non-`None` result; a plugin that raises
is logged and contributes no result.  The outcome of invoking a given
plugin's hook on the event under consideration is modelled as the
field `hookResult` (`none` = the hook returned `None` or raised). -/

structure PluginResult where
  handled : Bool
  response : Option String
  pluginName : String
  deriving Repr, DecidableEq

structure Plugin where
  name : String
  enabled : Bool
  priority : Int
  hookResult : Option PluginResult
  deriving Repr, DecidableEq

/-- Stable insertion step for descending-priority order: `p` goes in
front of the first plugin of strictly smaller priority, hence after
every earlier plugin of equal priority (matching Python's stable
`sorted`). -/
def insertByPriorityDesc (p : Plugin) : List Plugin → List Plugin
  | [] => [p]
  | q :: qs =>
      if q.priority < p.priority then p :: q :: qs
      else q :: insertByPriorityDesc p qs

/-- `sorted(plugins, key=lambda x: x.priority, reverse=True)`. -/
def sortByPriorityDesc : List Plugin → List Plugin
  | [] => []
  | p :: ps => insertByPriorityDesc p (sortByPriorityDesc ps)

/-- `PluginManager.call_plugin_hook`: returns the names of the plugins
whose hook is invoked, in invocation order, together with the list of
collected (non-`None`) results. -/
def callPluginHook (plugins : List Plugin) : List String × List PluginResult :=
  let sortedPlugins := sortByPriorityDesc (plugins.filter (·.enabled))
  (sortedPlugins.map (·.name), sortedPlugins.filterMap (·.hookResult))

/-! ## Retry/backoff policy (`src/utils.py`, `src/deepseek_api.py`)

`calculate_retry_delay` (and the identical `_calculate_retry_delay`
method of `DeepSeekAPI`): `delay = min(base_delay * backoff_factor **
attempt, max_delay); jitter = delay * 0.25 * (2 * random.random() - 1);
return max(0.1, delay + jitter)`. -/

/-- The clamped pre-jitter delay `min(base_delay * backoff_factor **
attempt, max_delay)`. -/
def clampedDelay (baseDelay backoffFactor maxDelay : ℚ) (attempt : Nat) : ℚ :=
  min (baseDelay * backoffFactor ^ attempt) maxDelay

/-- `calculate_retry_delay`, with `random.random()` made explicit as
the parameter `r` (`0 ≤ r < 1`). -/
def calculateRetryDelay (baseDelay backoffFactor maxDelay : ℚ) (attempt : Nat)
    (r : ℚ) : ℚ :=
  let delay := clampedDelay baseDelay backoffFactor maxDelay attempt
  let jitter := delay * (1/4) * (2 * r - 1)
  max (1/10) (delay + jitter)

/-- The attempt loop of `retry_async`: `for attempt in range(max_retries)`
calls the wrapped function once per iteration and stops at the first
success; `succeeds i` tells whether the call made at loop index `i`
succeeds.  Returns the number of calls performed. -/
def retryAttempts (attempt : Nat) (remaining : Nat) (succeeds : Nat → Bool) : Nat :=
  match remaining with
  | 0 => 0
  | n + 1 => 1 + (if succeeds attempt then 0 else retryAttempts (attempt + 1) n succeeds)

/-! ## Python string helpers

Python `str` is modelled as `List Char` where length and slicing
matter (Python slicing and `len` count code points, as `List Char`
does). -/

/-- Python truthiness of an optional string: `None` and `""` are
falsy. -/
def pyStrTruthy : Option String → Bool
  | none => false
  | some s => s != ""

/-- Python `s[:n]`, including the negative-index case
(`s[:-k] = s[:len(s)-k]`, empty when `k ≥ len(s)`). -/
def pyTake (s : List Char) (n : Int) : List Char :=
  if 0 ≤ n then s.take n.toNat else s.take (s.length - n.natAbs)

/-- The three-character ellipsis marker `"..."` appended by the
truncation code. -/
def ellipsis : List Char := ['.', '.', '.']

/-- The response-length truncation used (identically) on mention
replies, chat replies and auto-posts: `if len(reply) > max_length:
reply = reply[:max_length-3] + "..."`. -/
def limitLength (s : List Char) (maxLength : Nat) : List Char :=
  if maxLength < s.length then pyTake s ((maxLength : Int) - 3) ++ ellipsis else s

/-! ## Canonical events and bot state (`src/bot.py`) -/

/-- A Misskey user object as the handlers read it (`user.get("id")`,
`user.get("username", "用户")`); `none` field = key absent. -/
structure MisskeyUser where
  id : Option String
  username : Option String
  deriving Repr, DecidableEq

/-- A mention note as `_handle_mention` reads it.  `createdAt` is part
of the wire payload; the handler never reads it (it is carried here so
that replay-protection statements can be expressed). -/
structure Note where
  id : Option String
  user : Option MisskeyUser
  text : Option String
  createdAt : Option Int
  deriving Repr, DecidableEq

/-- A chat message as `_handle_message` reads it.  The handler probes
several alternate key spellings: `userId` / `user_id` / `fromUserId` /
`from_user_id` (the `Alt` fields are the snake_case spellings), then
the nested `user` and `sender` objects. -/
structure ChatMessage where
  id : Option String
  text : Option String
  content : Option String
  body : Option String
  userId : Option String
  userIdAlt : Option String
  fromUserId : Option String
  fromUserIdAlt : Option String
  user : Option MisskeyUser
  sender : Option MisskeyUser
  createdAt : Option Int
  deriving Repr, DecidableEq

/-- `text = message.get("text") or message.get("content") or
message.get("body", "")` — Python `or` returns the first truthy
operand, else the last operand (here defaulted to `""`). -/
def resolvedText (m : ChatMessage) : Option String :=
  if pyStrTruthy m.text then m.text
  else if pyStrTruthy m.content then m.content
  else some (m.body.getD "")

/-- The `user_id` resolution chain of `_handle_message`: the four
direct keys via `or`, then `user.get("id")` if still falsy and the
`user` key is present, then `sender.get("id")` likewise. -/
def resolvedUserId (m : ChatMessage) : Option String :=
  let u :=
    if pyStrTruthy m.userId then m.userId
    else if pyStrTruthy m.userIdAlt then m.userIdAlt
    else if pyStrTruthy m.fromUserId then m.fromUserId
    else m.fromUserIdAlt
  let u :=
    if pyStrTruthy u then u
    else match m.user with
      | some uo => uo.id
      | none => u
  if pyStrTruthy u then u
  else match m.sender with
    | some so => so.id
    | none => u

/-- `deque(maxlen=cap).append`: append, silently evicting the oldest
entries beyond capacity.  The capacity `MAX_PROCESSED_ITEMS_CACHE`
comes from `src/constants.py`, which is absent from the snapshot, so
it stays a parameter. -/
def dequeAppend (cap : Nat) (l : List String) (x : String) : List String :=
  let l' := l ++ [x]
  if cap < l'.length then l'.drop (l'.length - cap) else l'

/-- The shared mutable state of `MisskeyBot` that the handlers touch:
the two durable tables and the two in-memory recent-ID deques. -/
structure BotState where
  mentionsDb : List MentionRecord
  processedMentions : List String
  messagesDb : List MessageRecord
  processedMessages : List String
  deriving Repr, DecidableEq

/-- Outcome of one upstream completion call (`generate_reply` /
`generate_chat_response`): the generated text, or the typed error the
call raises after its internal retries are exhausted. -/
inductive GenOutcome where
  | ok (text : List Char)
  | rateLimit
  | connError
  | authError
  deriving Repr, DecidableEq

/-- A `create_note(text, reply_id=...)` call made by the mention
path. -/
structure SentNote where
  text : List Char
  replyId : Option String
  deriving Repr, DecidableEq

/-- A `send_message(user_id, text)` call made by the chat path. -/
structure SentDm where
  userId : String
  text : List Char
  deriving Repr, DecidableEq

/-- The observable actions of a handler run, in program order:
durable mark, cache append, reply generation, reply delivery. -/
inductive Act where
  | markDb
  | appendCache
  | generate
  | deliver
  deriving Repr, DecidableEq

/-- `DEFAULT_ERROR_REPLY_MAX_LENGTH` (`src/bot.py`, a literal `500`). -/
def defaultErrorReplyMaxLength : Nat := 500

/-- The error text `_handle_mention` chooses when reply generation
raises: rate-limit, authentication and the connection/default
message. -/
def mentionGenErrorMessage : GenOutcome → List Char
  | .rateLimit => "抱歉，请求过于频繁，请稍后再试。".data
  | .authError => "抱歉，服务配置有误，请联系管理员。".data
  | _ => "抱歉，AI服务暂时不可用，请稍后再试。".data

/-- `_send_error_reply(username, note_id, message)`: truncates the
message at `DEFAULT_ERROR_REPLY_MAX_LENGTH` and posts
`f"@{username} {message}"` as a reply. -/
def sendErrorReplyText (username : String) (message : List Char) : List Char :=
  let message :=
    if defaultErrorReplyMaxLength < message.length then
      pyTake message ((defaultErrorReplyMaxLength : Int) - 3) ++ ellipsis
    else message
  ('@' :: username.data) ++ (' ' :: message)

structure MentionOutcome where
  state : BotState
  sent : List SentNote
  trace : List Act
  deriving Repr, DecidableEq

/-- `MisskeyBot._handle_mention`, linearised.  Upstream calls are
abstracted: `gen` is the outcome of `generate_reply`; delivery
(`create_note`) is recorded in `sent`.  Program order: falsy-id guard;
dedup check (in-memory deque first, then the durable table);
required-field validation (`user`, `id`, `text` — a missing field
raises `ValueError`, which the handler catches and logs without
marking or replying); durable mark + cache append; generation;
truncation; delivery.  When generation raises one of the typed API
errors, the handler delivers an error reply via `_send_error_reply`
instead. -/
def handleMention (maxLength cacheCap : Nat) (gen : GenOutcome) (markFails : Bool)
    (note : Note) (s : BotState) : MentionOutcome :=
  match note.id with
  | none => ⟨s, [], []⟩
  | some nid =>
    if nid = "" then ⟨s, [], []⟩
    else if s.processedMentions.contains nid || isMentionProcessed s.mentionsDb nid then
      ⟨s, [], []⟩
    else
      match note.user, note.text with
      | some user, some _text =>
          let username := user.username.getD "用户"
          let userId := user.id
          let s1 : BotState :=
            { s with
              mentionsDb := markMentionProcessedF markFails s.mentionsDb nid userId (some username),
              processedMentions := dequeAppend cacheCap s.processedMentions nid }
          match gen with
          | .ok reply =>
              ⟨s1, [⟨limitLength reply maxLength, some nid⟩],
               [.markDb, .appendCache, .generate, .deliver]⟩
          | e =>
              ⟨s1, [⟨sendErrorReplyText username (mentionGenErrorMessage e), some nid⟩],
               [.markDb, .appendCache, .generate, .deliver]⟩
      | _, _ => ⟨s, [], []⟩

structure MessageOutcome where
  state : BotState
  sent : List SentDm
  trace : List Act
  deriving Repr, DecidableEq

/-- `MisskeyBot._handle_message`, linearised.  Program order: falsy-id
guard; dedup check (deque then durable table); field resolution;
self-message short-circuit (`bot_user_id` truthy and the resolved
author equals it → mark + cache append, no reply); durable mark +
cache append; missing user-id/text guard (after marking); generation;
truncation; delivery.  A generation error is caught by the handler's
outer `except` and produces no reply at all. -/
def handleMessage (maxLength cacheCap : Nat) (botUserId : Option String)
    (gen : GenOutcome) (markFails : Bool) (m : ChatMessage) (s : BotState) :
    MessageOutcome :=
  match m.id with
  | none => ⟨s, [], []⟩
  | some mid =>
    if mid = "" then ⟨s, [], []⟩
    else if s.processedMessages.contains mid || isMessageProcessed s.messagesDb mid then
      ⟨s, [], []⟩
    else
      let uid := resolvedUserId m
      let text := resolvedText m
      let s1 : BotState :=
        { s with
          messagesDb := markMessageProcessedF markFails s.messagesDb mid uid (some "private"),
          processedMessages := dequeAppend cacheCap s.processedMessages mid }
      if pyStrTruthy botUserId && (uid == botUserId) then
        ⟨s1, [], [.markDb, .appendCache]⟩
      else if !(pyStrTruthy uid) || !(pyStrTruthy text) then
        ⟨s1, [], [.markDb, .appendCache]⟩
      else
        match gen with
        | .ok reply =>
            ⟨s1, [⟨uid.getD "", limitLength reply maxLength⟩],
             [.markDb, .appendCache, .generate, .deliver]⟩
        | _ =>
            ⟨s1, [], [.markDb, .appendCache, .generate]⟩

/-! ## Auto-post loop (`src/bot.py`) -/

/-- The `posts_today` counter and the tracked day, as kept on the bot
instance (dates modelled as integers). -/
structure AutoPostState where
  postsToday : Nat
  today : Int
  deriving Repr, DecidableEq

/-- `MisskeyBot._reset_daily_post_count`. -/
def resetDailyPostCount (currentDate : Int) (_st : AutoPostState) : AutoPostState :=
  ⟨0, currentDate⟩

/-- `MisskeyBot._auto_post`, one scheduler firing.  `gen` is the
outcome of `generate_post` (`none` = it raised, caught by the
handler's `except`); `postSucceeds` tells whether `create_note`
succeeds; the second component of the result counts the `create_note`
calls performed.  The counter is incremented only after a successful
post. -/
def autoPost (running : Bool) (currentDate : Int) (maxPosts : Nat)
    (gen : Option (List Char)) (maxLen : Nat) (postSucceeds : Bool)
    (st : AutoPostState) : AutoPostState × Nat :=
  if !running then (st, 0)
  else
    let st1 := if currentDate ≠ st.today then resetDailyPostCount currentDate st else st
    if maxPosts ≤ st1.postsToday then (st1, 0)
    else
      match gen with
      | none => (st1, 0)
      | some content =>
          let _posted := limitLength content maxLen
          if postSucceeds then ({ st1 with postsToday := st1.postsToday + 1 }, 1)
          else (st1, 1)

/-! ## Dual-source ingestion race (`src/bot.py`)

The streaming callback (`_handle_websocket_message`) and the poller
(`_poll_mentions` / `_poll_chat_messages`) both funnel the same raw
payload into `_handle_mention` / `_handle_message`, racing as two
cooperative asyncio tasks.  Interleaving is only possible at genuine
suspension points.  Inside a handler, the span from the dedup check
through the durable mark and the cache append never suspends: the
persistence calls serialise through an `asyncio.Lock` that is acquired
and released within a single synchronous SQLite block and is never
held across an `await`, so its uncontended acquisition does not yield;
the first real suspension points are the completion call
(`asyncio.to_thread`) and the HTTP delivery call.  Accordingly a
handler run is modelled as three atomic segments — admission
(check + validate + mark + cache append), generation, delivery — and
the race as an arbitrary interleaving of the segments of two handler
instances over the shared `BotState`. -/

/-- Where one handler instance stands: not yet run, admitted and about
to generate, about to deliver, dropped (duplicate/invalid), or done
after delivering. -/
inductive Phase where
  | start
  | gen
  | send
  | doneDropped
  | doneSent
  deriving Repr, DecidableEq

/-- A handler that has passed admission (and therefore owns the reply
for this event). -/
def Phase.winner : Phase → Bool
  | .gen | .send | .doneSent => true
  | _ => false

def Phase.isDone : Phase → Bool
  | .doneDropped | .doneSent => true
  | _ => false

/-- Replies this handler has delivered (0 or 1). -/
def Phase.delivered : Phase → Nat
  | .doneSent => 1
  | _ => 0

/-- The atomic admission segment of `_handle_mention`: falsy-id guard,
dedup check, required-field validation, durable mark, cache append.
Returns the updated state and whether the handler proceeds to
generation.  Same text as the corresponding prefix of
`handleMention`. -/
def admitMention (markFails : Bool) (cacheCap : Nat) (note : Note) (s : BotState) :
    BotState × Bool :=
  match note.id with
  | none => (s, false)
  | some nid =>
    if nid = "" then (s, false)
    else if s.processedMentions.contains nid || isMentionProcessed s.mentionsDb nid then
      (s, false)
    else
      match note.user, note.text with
      | some user, some _text =>
          ({ s with
             mentionsDb := markMentionProcessedF markFails s.mentionsDb nid user.id
               (some (user.username.getD "用户")),
             processedMentions := dequeAppend cacheCap s.processedMentions nid }, true)
      | _, _ => (s, false)

/-- The atomic admission segment of `_handle_message`: falsy-id guard,
dedup check, field resolution, self-message short-circuit, durable
mark, cache append, missing user-id/text guard.  Returns the updated
state and whether the handler proceeds to generation. -/
def admitMessage (markFails : Bool) (cacheCap : Nat) (botUserId : Option String)
    (m : ChatMessage) (s : BotState) : BotState × Bool :=
  match m.id with
  | none => (s, false)
  | some mid =>
    if mid = "" then (s, false)
    else if s.processedMessages.contains mid || isMessageProcessed s.messagesDb mid then
      (s, false)
    else
      let uid := resolvedUserId m
      let s1 : BotState :=
        { s with
          messagesDb := markMessageProcessedF markFails s.messagesDb mid uid (some "private"),
          processedMessages := dequeAppend cacheCap s.processedMessages mid }
      if pyStrTruthy botUserId && (uid == botUserId) then (s1, false)
      else if !(pyStrTruthy uid) || !(pyStrTruthy (resolvedText m)) then (s1, false)
      else (s1, true)

/-- One atomic segment of one handler instance: admission from
`start`, then generation, then delivery (counted in `d`); terminal
phases are inert. -/
def handlerStep (admitF : BotState → BotState × Bool) (p : Phase) (s : BotState)
    (d : Nat) : Phase × BotState × Nat :=
  match p with
  | .start =>
      let r := admitF s
      (if r.2 then .gen else .doneDropped, r.1, d)
  | .gen => (.send, s, d)
  | .send => (.doneSent, s, d + 1)
  | .doneDropped => (.doneDropped, s, d)
  | .doneSent => (.doneSent, s, d)

/-- The race configuration: the two handler instances (streaming-path
and polling-path), the shared bot state, and the total number of
delivered replies. -/
structure RaceConfig where
  p1 : Phase
  p2 : Phase
  s : BotState
  d : Nat

/-- One scheduler decision: `true` steps the first handler, `false`
the second. -/
def raceStep (admitF : BotState → BotState × Bool) (turn : Bool) (c : RaceConfig) :
    RaceConfig :=
  if turn then
    let r := handlerStep admitF c.p1 c.s c.d
    ⟨r.1, c.p2, r.2.1, r.2.2⟩
  else
    let r := handlerStep admitF c.p2 c.s c.d
    ⟨c.p1, r.1, r.2.1, r.2.2⟩

/-- Run the race under an arbitrary schedule. -/
def raceRun (admitF : BotState → BotState × Bool) : List Bool → RaceConfig → RaceConfig
  | [], c => c
  | t :: ts, c => raceRun admitF ts (raceStep admitF t c)

/-- Race invariant, generic in the admission function.  `P s` reads
"the event is recorded as seen in state `s`" (the disjunction the
dedup check tests); `C s` is the target property "exactly one durable
record".  The invariant: before anyone admits, nothing has happened;
once `P` holds, `C` holds; only a handler that admitted (`winner`) may
generate or deliver; at most one winner; once `P` holds there is a
winner; the delivery counter is the sum of per-handler deliveries. -/
def RaceInv (P C : BotState → Prop) (p q : Phase) (s : BotState) (d : Nat) : Prop :=
  (¬ P s → p = .start ∧ q = .start ∧ d = 0)
  ∧ (P s → C s)
  ∧ (p.winner = true → P s)
  ∧ (q.winner = true → P s)
  ∧ ¬ (p.winner = true ∧ q.winner = true)
  ∧ (P s → p.winner = true ∨ q.winner = true)
  ∧ d = p.delivered + q.delivered

/-- The disjunction the mention dedup check tests: in the in-memory
deque, or recorded in the durable table. -/
def mentionSeen (nid : String) (s : BotState) : Prop :=
  s.processedMentions.contains nid = true ∨ mentionCount s.mentionsDb nid ≠ 0

/-- The disjunction the chat-message dedup check tests. -/
def messageSeen (mid : String) (s : BotState) : Prop :=
  s.processedMessages.contains mid = true ∨ messageCount s.messagesDb mid ≠ 0

/-! ## Concrete objects used by witnesses and counterexamples -/

def emptyBotState : BotState := ⟨[], [], [], []⟩

/-- The spec's end-to-end scenario mention `{id: "n1", authorId: "u1",
text: "hello"}`, with a `createdAt` of 0. -/
def sampleNote : Note :=
  { id := some "n1", user := some ⟨some "u1", some "alice"⟩, text := some "hello",
    createdAt := some 0 }

/-- A mention authored by the bot itself (author id = the bot's own
user id `"bot1"`). -/
def botAuthoredNote : Note :=
  { id := some "n2", user := some ⟨some "bot1", some "bot"⟩, text := some "hi",
    createdAt := none }

/-- A mention missing the required `user` and `text` fields. -/
def invalidNote : Note :=
  { id := some "n3", user := none, text := none, createdAt := none }

def sampleChatMessage : ChatMessage :=
  { id := some "m1", text := some "hello", content := none, body := none,
    userId := some "u2", userIdAlt := none, fromUserId := none, fromUserIdAlt := none,
    user := none, sender := none, createdAt := some 0 }

/-- A chat message authored by the bot itself. -/
def selfChatMessage : ChatMessage :=
  { sampleChatMessage with id := some "m2", userId := some "bot1" }

def noIdChatMessage : ChatMessage := { sampleChatMessage with id := none }

def pluginAlpha : Plugin :=
  { name := "alpha", enabled := true, priority := 10,
    hookResult := some { handled := true, response := some "A", pluginName := "alpha" } }

def pluginBeta : Plugin :=
  { name := "beta", enabled := true, priority := 5,
    hookResult := some { handled := true, response := some "B", pluginName := "beta" } }

/-! ## Lemmas and claim theorems -/

lemma isMentionProcessed_eq_false_iff (db : List MentionRecord) (nid : String) :
    isMentionProcessed db nid = false ↔ mentionCount db nid = 0 := by
  simp [isMentionProcessed, mentionCount, List.countP_eq_zero, List.any_eq_true]

lemma isMessageProcessed_eq_false_iff (db : List MessageRecord) (mid : String) :
    isMessageProcessed db mid = false ↔ messageCount db mid = 0 := by
  simp [isMessageProcessed, messageCount, List.countP_eq_zero, List.any_eq_true]

lemma mentionCount_mark (db : List MentionRecord) (nid : String)
    (u n : Option String) :
    mentionCount (markMentionProcessed db nid u n) nid =
      if mentionCount db nid = 0 then 1 else mentionCount db nid := by
  by_cases h : isMentionProcessed db nid
  · have h0 : ¬ mentionCount db nid = 0 := by
      intro hc
      rw [← isMentionProcessed_eq_false_iff] at hc
      simp [h] at hc
    simp [markMentionProcessed, h, h0]
  · have h0 : mentionCount db nid = 0 := by
      rw [← isMentionProcessed_eq_false_iff]
      simpa using h
    have hb : isMentionProcessed db nid = false := by simpa using h
    rw [if_pos h0]
    unfold markMentionProcessed
    rw [hb]
    have h0' : db.countP (fun r => r.noteId == nid) = 0 := h0
    simp [mentionCount, List.countP_append, List.countP_cons, h0]
    intro a ha
    simpa using List.countP_eq_zero.mp h0' a ha

lemma messageCount_mark (db : List MessageRecord) (mid : String)
    (u c : Option String) :
    messageCount (markMessageProcessed db mid u c) mid =
      if messageCount db mid = 0 then 1 else messageCount db mid := by
  by_cases h : isMessageProcessed db mid
  · have h0 : ¬ messageCount db mid = 0 := by
      intro hc
      rw [← isMessageProcessed_eq_false_iff] at hc
      simp [h] at hc
    simp [markMessageProcessed, h, h0]
  · have h0 : messageCount db mid = 0 := by
      rw [← isMessageProcessed_eq_false_iff]
      simpa using h
    have hb : isMessageProcessed db mid = false := by simpa using h
    rw [if_pos h0]
    unfold markMessageProcessed
    rw [hb]
    have h0' : db.countP (fun r => r.messageId == mid) = 0 := h0
    simp [messageCount, List.countP_append, List.countP_cons, h0]
    intro a ha
    simpa using List.countP_eq_zero.mp h0' a ha

lemma retryAttempts_le (attempt remaining : Nat) (succeeds : Nat → Bool) :
    retryAttempts attempt remaining succeeds ≤ remaining := by
  induction remaining generalizing attempt with
  | zero => simp [retryAttempts]
  | succ n ih =>
      simp only [retryAttempts]
      cases hs : succeeds attempt with
      | true => simp
      | false =>
          have := ih (attempt + 1)
          simp only [hs, Bool.false_eq_true, if_false]
          omega

lemma RaceInv.swap {P C : BotState → Prop} {p q : Phase} {s : BotState} {d : Nat}
    (h : RaceInv P C p q s d) : RaceInv P C q p s d := by
  obtain ⟨h1, h2, h3, h4, h5, h6, h7⟩ := h
  refine ⟨fun hP => ⟨(h1 hP).2.1, (h1 hP).1, (h1 hP).2.2⟩, h2, h4, h3,
    fun hw => h5 ⟨hw.2, hw.1⟩, fun hP => (h6 hP).symm, by omega⟩

lemma raceInv_handlerStep {admitF : BotState → BotState × Bool} {P C : BotState → Prop}
    (hfresh : ∀ s, ¬ P s → (admitF s).2 = true ∧ P (admitF s).1 ∧ C (admitF s).1)
    (hdup : ∀ s, P s → admitF s = (s, false))
    {p q : Phase} {s : BotState} {d : Nat} (h : RaceInv P C p q s d) :
    RaceInv P C (handlerStep admitF p s d).1 q (handlerStep admitF p s d).2.1
      (handlerStep admitF p s d).2.2 := by
  obtain ⟨h1, h2, h3, h4, h5, h6, h7⟩ := h
  cases p with
  | start =>
      by_cases hP : P s
      · rw [handlerStep]
        rw [hdup s hP]
        exact ⟨fun hns => absurd hP hns, h2, by simp [Phase.winner], h4,
          fun hw => by simp [Phase.winner] at hw,
          fun hPs => Or.inr (by
            rcases h6 hPs with hw | hw
            · simp [Phase.winner] at hw
            · exact hw),
          by simpa [Phase.delivered] using h7⟩
      · obtain ⟨ha, hPa, hCa⟩ := hfresh s hP
        obtain ⟨-, hq, hd⟩ := h1 hP
        subst hq
        rw [handlerStep]
        rw [ha]
        exact ⟨fun hns => absurd hPa hns, fun _ => hCa, fun _ => hPa,
          by simp [Phase.winner], by simp [Phase.winner],
          fun _ => Or.inl (by simp [Phase.winner]),
          by simpa [Phase.delivered] using hd⟩
  | gen =>
      have hPs : P s := h3 (by simp [Phase.winner])
      rw [handlerStep]
      exact ⟨fun hns => absurd hPs hns, h2, fun _ => hPs, h4,
        fun hw => h5 ⟨by simp [Phase.winner], hw.2⟩,
        fun _ => Or.inl (by simp [Phase.winner]),
        by simpa [Phase.delivered] using h7⟩
  | send =>
      have hPs : P s := h3 (by simp [Phase.winner])
      rw [handlerStep]
      refine ⟨fun hns => absurd hPs hns, h2, fun _ => hPs, h4,
        fun hw => h5 ⟨by simp [Phase.winner], hw.2⟩,
        fun _ => Or.inl (by simp [Phase.winner]), ?_⟩
      have hs0 : Phase.delivered .send = 0 := rfl
      have hs1 : Phase.delivered .doneSent = 1 := rfl
      show d + 1 = Phase.delivered .doneSent + q.delivered
      omega
  | doneDropped =>
      exact ⟨h1, h2, h3, h4, h5, h6, h7⟩
  | doneSent =>
      exact ⟨h1, h2, h3, h4, h5, h6, h7⟩

lemma raceInv_raceStep {admitF : BotState → BotState × Bool} {P C : BotState → Prop}
    (hfresh : ∀ s, ¬ P s → (admitF s).2 = true ∧ P (admitF s).1 ∧ C (admitF s).1)
    (hdup : ∀ s, P s → admitF s = (s, false))
    (t : Bool) {c : RaceConfig} (h : RaceInv P C c.p1 c.p2 c.s c.d) :
    RaceInv P C (raceStep admitF t c).p1 (raceStep admitF t c).p2
      (raceStep admitF t c).s (raceStep admitF t c).d := by
  cases t with
  | true => simpa [raceStep] using raceInv_handlerStep hfresh hdup h
  | false => simpa [raceStep] using (raceInv_handlerStep hfresh hdup h.swap).swap

lemma raceInv_raceRun {admitF : BotState → BotState × Bool} {P C : BotState → Prop}
    (hfresh : ∀ s, ¬ P s → (admitF s).2 = true ∧ P (admitF s).1 ∧ C (admitF s).1)
    (hdup : ∀ s, P s → admitF s = (s, false))
    (sched : List Bool) {c : RaceConfig} (h : RaceInv P C c.p1 c.p2 c.s c.d) :
    RaceInv P C (raceRun admitF sched c).p1 (raceRun admitF sched c).p2
      (raceRun admitF sched c).s (raceRun admitF sched c).d := by
  induction sched generalizing c with
  | nil => simpa [raceRun] using h
  | cons t ts ih =>
      rw [raceRun]
      exact ih (raceInv_raceStep hfresh hdup t h)

/-- What the invariant yields at the end of any schedule: at most one
delivered reply; `C` whenever anyone admitted; and if both handler
instances have run to completion, exactly one reply was delivered and
`C` holds. -/
lemma RaceInv.conclusions {P C : BotState → Prop} {p q : Phase} {s : BotState}
    {d : Nat} (h : RaceInv P C p q s d) :
    d ≤ 1 ∧ (P s → C s) ∧
      (p.isDone = true → q.isDone = true → d = 1 ∧ C s) := by
  obtain ⟨h1, h2, h3, h4, h5, h6, h7⟩ := h
  have hp1 : p.delivered ≤ 1 := by cases p <;> simp [Phase.delivered]
  have hq1 : q.delivered ≤ 1 := by cases q <;> simp [Phase.delivered]
  have hd1 : d ≤ 1 := by
    rcases Nat.lt_or_ge d 2 with hlt | hge
    · omega
    · exfalso
      have hpd : p.delivered = 1 := by omega
      have hqd : q.delivered = 1 := by omega
      have hps : p = .doneSent := by cases p <;> simp_all [Phase.delivered]
      have hqs : q = .doneSent := by cases q <;> simp_all [Phase.delivered]
      exact h5 ⟨by simp [hps, Phase.winner], by simp [hqs, Phase.winner]⟩
  refine ⟨hd1, h2, fun hpD hqD => ?_⟩
  by_cases hP : P s
  · rcases h6 hP with hw | hw
    · have hps : p = .doneSent := by
        cases p <;> simp_all [Phase.winner, Phase.isDone]
      have : q ≠ .doneSent := by
        intro hq
        exact h5 ⟨hw, by simp [hq, Phase.winner]⟩
      refine ⟨?_, h2 hP⟩
      cases q <;> simp_all [Phase.delivered, Phase.isDone]
    · have hqs : q = .doneSent := by
        cases q <;> simp_all [Phase.winner, Phase.isDone]
      have : p ≠ .doneSent := by
        intro hp
        exact h5 ⟨by simp [hp, Phase.winner], hw⟩
      refine ⟨?_, h2 hP⟩
      cases p <;> simp_all [Phase.delivered, Phase.isDone]
  · obtain ⟨hp0, -, -⟩ := h1 hP
    subst hp0
    simp [Phase.isDone] at hpD

lemma isMentionProcessed_of_count_ne {db : List MentionRecord} {nid : String}
    (h : mentionCount db nid ≠ 0) : isMentionProcessed db nid = true := by
  cases hb : isMentionProcessed db nid
  · exact absurd ((isMentionProcessed_eq_false_iff db nid).mp hb) h
  · rfl

lemma isMessageProcessed_of_count_ne {db : List MessageRecord} {mid : String}
    (h : messageCount db mid ≠ 0) : isMessageProcessed db mid = true := by
  cases hb : isMessageProcessed db mid
  · exact absurd ((isMessageProcessed_eq_false_iff db mid).mp hb) h
  · rfl

lemma admitMention_dup {cap : Nat} {note : Note} {nid : String} {s : BotState}
    (hid : note.id = some nid) (hP : mentionSeen nid s) :
    admitMention false cap note s = (s, false) := by
  unfold admitMention
  simp only [hid]
  by_cases hnid : nid = ""
  · rw [if_pos hnid]
  · have hchk : (s.processedMentions.contains nid || isMentionProcessed s.mentionsDb nid) = true := by
      rcases hP with hc | hdb
      · rw [hc, Bool.true_or]
      · rw [isMentionProcessed_of_count_ne hdb, Bool.or_true]
    rw [if_neg hnid, hchk, if_pos rfl]

lemma admitMention_fresh {cap : Nat} {note : Note} {nid : String} {u : MisskeyUser}
    {tx : String} {s : BotState}
    (hid : note.id = some nid) (hnid : nid ≠ "")
    (hu : note.user = some u) (ht : note.text = some tx)
    (hP : ¬ mentionSeen nid s) :
    (admitMention false cap note s).2 = true ∧
      mentionSeen nid (admitMention false cap note s).1 ∧
      mentionCount (admitMention false cap note s).1.mentionsDb nid = 1 := by
  have hc : s.processedMentions.contains nid = false := by
    cases hcc : s.processedMentions.contains nid
    · rfl
    · exact absurd (Or.inl hcc) hP
  have hcnt : mentionCount s.mentionsDb nid = 0 := by
    by_cases h0 : mentionCount s.mentionsDb nid = 0
    · exact h0
    · exact absurd (Or.inr h0) hP
  have hdb : isMentionProcessed s.mentionsDb nid = false :=
    (isMentionProcessed_eq_false_iff s.mentionsDb nid).mpr hcnt
  have hcnt1 : mentionCount
      (markMentionProcessedF false s.mentionsDb nid u.id (some (u.username.getD "用户"))) nid = 1 := by
    show mentionCount
      (markMentionProcessed s.mentionsDb nid u.id (some (u.username.getD "用户"))) nid = 1
    rw [mentionCount_mark]
    simp [hcnt]
  have hchk : (s.processedMentions.contains nid || isMentionProcessed s.mentionsDb nid) = false := by
    rw [hc, hdb, Bool.or_false]
  unfold admitMention
  simp only [hid, hu, ht]
  rw [if_neg hnid, hchk, if_neg Bool.false_ne_true]
  exact ⟨rfl, Or.inr (by rw [hcnt1]; omega), hcnt1⟩

lemma admitMessage_dup {cap : Nat} {bot : Option String} {m : ChatMessage}
    {mid : String} {s : BotState}
    (hid : m.id = some mid) (hP : messageSeen mid s) :
    admitMessage false cap bot m s = (s, false) := by
  unfold admitMessage
  simp only [hid]
  by_cases hmid : mid = ""
  · rw [if_pos hmid]
  · have hchk : (s.processedMessages.contains mid || isMessageProcessed s.messagesDb mid) = true := by
      rcases hP with hc | hdb
      · rw [hc, Bool.true_or]
      · rw [isMessageProcessed_of_count_ne hdb, Bool.or_true]
    rw [if_neg hmid, hchk, if_pos rfl]

lemma admitMessage_fresh {cap : Nat} {bot : Option String} {m : ChatMessage}
    {mid : String} {s : BotState}
    (hid : m.id = some mid) (hmid : mid ≠ "")
    (hself : (pyStrTruthy bot && (resolvedUserId m == bot)) = false)
    (huid : pyStrTruthy (resolvedUserId m) = true)
    (htext : pyStrTruthy (resolvedText m) = true)
    (hP : ¬ messageSeen mid s) :
    (admitMessage false cap bot m s).2 = true ∧
      messageSeen mid (admitMessage false cap bot m s).1 ∧
      messageCount (admitMessage false cap bot m s).1.messagesDb mid = 1 := by
  have hc : s.processedMessages.contains mid = false := by
    cases hcc : s.processedMessages.contains mid
    · rfl
    · exact absurd (Or.inl hcc) hP
  have hcnt : messageCount s.messagesDb mid = 0 := by
    by_cases h0 : messageCount s.messagesDb mid = 0
    · exact h0
    · exact absurd (Or.inr h0) hP
  have hdb : isMessageProcessed s.messagesDb mid = false :=
    (isMessageProcessed_eq_false_iff s.messagesDb mid).mpr hcnt
  have hcnt1 : messageCount
      (markMessageProcessedF false s.messagesDb mid (resolvedUserId m) (some "private")) mid = 1 := by
    show messageCount
      (markMessageProcessed s.messagesDb mid (resolvedUserId m) (some "private")) mid = 1
    rw [messageCount_mark]
    simp [hcnt]
  have hchk : (s.processedMessages.contains mid || isMessageProcessed s.messagesDb mid) = false := by
    rw [hc, hdb, Bool.or_false]
  have hguard : (!(pyStrTruthy (resolvedUserId m)) || !(pyStrTruthy (resolvedText m))) = false := by
    rw [huid, htext]
    rfl
  unfold admitMessage
  simp only [hid]
  rw [if_neg hmid, hchk, if_neg Bool.false_ne_true, hself, if_neg Bool.false_ne_true,
    hguard, if_neg Bool.false_ne_true]
  exact ⟨rfl, Or.inr (by rw [hcnt1]; omega), hcnt1⟩

lemma handleMention_state_eq (ml cap : Nat) (g : GenOutcome) (mf : Bool)
    (note : Note) (s : BotState) :
    (handleMention ml cap g mf note s).state = (admitMention mf cap note s).1 ∧
      (handleMention ml cap g mf note s).sent.length
        = (if (admitMention mf cap note s).2 = true then 1 else 0) := by
  obtain ⟨oid, ouser, otext, ocreated⟩ := note
  cases oid with
  | none => simp [handleMention, admitMention]
  | some nid =>
      cases ouser <;> cases otext <;> cases g <;>
        simp [handleMention, admitMention] <;> split_ifs <;> simp_all

lemma handleMessage_state_eq (ml cap : Nat) (bot : Option String) (g : GenOutcome)
    (mf : Bool) (m : ChatMessage) (s : BotState) :
    (handleMessage ml cap bot g mf m s).state = (admitMessage mf cap bot m s).1 ∧
      (handleMessage ml cap bot g mf m s).sent.length
        = (if (admitMessage mf cap bot m s).2 = true then
            (match g with | .ok _ => 1 | _ => 0) else 0) := by
  obtain ⟨oid, ot, oc, ob, ou1, ou2, ou3, ou4, ouser, osender, ocr⟩ := m
  cases oid with
  | none => simp [handleMessage, admitMessage]
  | some mid =>
      cases g <;>
        simp [handleMessage, admitMessage] <;> split_ifs <;> simp_all

lemma limitLength_spec (s : List Char) (ml : Nat) (hml : 3 ≤ ml)
    (hlong : ml < s.length) :
    limitLength s ml = s.take (ml - 3) ++ ellipsis ∧ (limitLength s ml).length = ml := by
  have htn : ((ml : Int) - 3).toNat = ml - 3 := by omega
  have h1 : limitLength s ml = s.take (ml - 3) ++ ellipsis := by
    unfold limitLength pyTake
    rw [if_pos hlong, if_pos (by omega : (0 : Int) ≤ (ml : Int) - 3), htn]
  refine ⟨h1, ?_⟩
  rw [h1, List.length_append, List.length_take]
  have he : ellipsis.length = 3 := rfl
  omega

lemma handleMention_fresh_eval (ml cap : Nat) (g : GenOutcome) (mf : Bool)
    (note : Note) (s : BotState) {nid : String} {u : MisskeyUser} {tx : String}
    (hid : note.id = some nid) (hnid : nid ≠ "")
    (hu : note.user = some u) (ht : note.text = some tx)
    (hc : s.processedMentions.contains nid = false)
    (hcnt : mentionCount s.mentionsDb nid = 0) :
    handleMention ml cap g mf note s =
      ⟨{ s with
         mentionsDb := markMentionProcessedF mf s.mentionsDb nid u.id
           (some (u.username.getD "用户")),
         processedMentions := dequeAppend cap s.processedMentions nid },
       [match g with
        | .ok reply => ⟨limitLength reply ml, some nid⟩
        | e => ⟨sendErrorReplyText (u.username.getD "用户") (mentionGenErrorMessage e),
                some nid⟩],
       [.markDb, .appendCache, .generate, .deliver]⟩ := by
  have hdb : isMentionProcessed s.mentionsDb nid = false :=
    (isMentionProcessed_eq_false_iff _ _).mpr hcnt
  have hchk : (s.processedMentions.contains nid || isMentionProcessed s.mentionsDb nid) = false := by
    rw [hc, hdb, Bool.or_false]
  unfold handleMention
  simp only [hid, hu, ht]
  rw [if_neg hnid, hchk, if_neg Bool.false_ne_true]
  cases g <;> rfl

lemma handleMention_invalid_eval (ml cap : Nat) (g : GenOutcome) (mf : Bool)
    (note : Note) (s : BotState) {nid : String}
    (hid : note.id = some nid) (hnid : nid ≠ "")
    (hinv : note.user = none ∨ note.text = none) :
    handleMention ml cap g mf note s = ⟨s, [], []⟩ := by
  unfold handleMention
  simp only [hid]
  rw [if_neg hnid]
  by_cases hdup : (s.processedMentions.contains nid || isMentionProcessed s.mentionsDb nid) = true
  · rw [hdup]
    simp
  · have hf : (s.processedMentions.contains nid || isMentionProcessed s.mentionsDb nid) = false :=
      Bool.eq_false_iff.mpr hdup
    rw [hf, if_neg Bool.false_ne_true]
    rcases hinv with h | h
    · rw [h]
    · rw [h]
      cases hu : note.user <;> rfl

lemma handleMention_noid_eval (ml cap : Nat) (g : GenOutcome) (mf : Bool)
    (note : Note) (s : BotState)
    (hid : note.id = none ∨ note.id = some "") :
    handleMention ml cap g mf note s = ⟨s, [], []⟩ := by
  unfold handleMention
  rcases hid with h | h
  · rw [h]
  · rw [h]
    simp

lemma handleMessage_fresh_eval (ml cap : Nat) (bot : Option String) (g : GenOutcome)
    (mf : Bool) (m : ChatMessage) (s : BotState) {mid : String}
    (hid : m.id = some mid) (hmid : mid ≠ "")
    (hself : (pyStrTruthy bot && (resolvedUserId m == bot)) = false)
    (huid : pyStrTruthy (resolvedUserId m) = true)
    (htext : pyStrTruthy (resolvedText m) = true)
    (hc : s.processedMessages.contains mid = false)
    (hcnt : messageCount s.messagesDb mid = 0) :
    handleMessage ml cap bot g mf m s =
      ⟨{ s with
         messagesDb := markMessageProcessedF mf s.messagesDb mid (resolvedUserId m)
           (some "private"),
         processedMessages := dequeAppend cap s.processedMessages mid },
       (match g with
        | .ok reply => [⟨(resolvedUserId m).getD "", limitLength reply ml⟩]
        | _ => []),
       .markDb :: .appendCache :: .generate ::
         (match g with | .ok _ => [Act.deliver] | _ => [])⟩ := by
  have hdb : isMessageProcessed s.messagesDb mid = false :=
    (isMessageProcessed_eq_false_iff _ _).mpr hcnt
  have hchk : (s.processedMessages.contains mid || isMessageProcessed s.messagesDb mid) = false := by
    rw [hc, hdb, Bool.or_false]
  have hguard : (!(pyStrTruthy (resolvedUserId m)) || !(pyStrTruthy (resolvedText m))) = false := by
    rw [huid, htext]
    rfl
  unfold handleMessage
  simp only [hid]
  rw [if_neg hmid, hchk, if_neg Bool.false_ne_true, hself, if_neg Bool.false_ne_true,
    hguard, if_neg Bool.false_ne_true]
  cases g <;> rfl

lemma handleMessage_self_eval (ml cap : Nat) (bot : Option String) (g : GenOutcome)
    (mf : Bool) (m : ChatMessage) (s : BotState) {mid : String}
    (hid : m.id = some mid) (hmid : mid ≠ "")
    (hself : (pyStrTruthy bot && (resolvedUserId m == bot)) = true)
    (hc : s.processedMessages.contains mid = false)
    (hcnt : messageCount s.messagesDb mid = 0) :
    handleMessage ml cap bot g mf m s =
      ⟨{ s with
         messagesDb := markMessageProcessedF mf s.messagesDb mid (resolvedUserId m)
           (some "private"),
         processedMessages := dequeAppend cap s.processedMessages mid },
       [], [.markDb, .appendCache]⟩ := by
  have hdb : isMessageProcessed s.messagesDb mid = false :=
    (isMessageProcessed_eq_false_iff _ _).mpr hcnt
  have hchk : (s.processedMessages.contains mid || isMessageProcessed s.messagesDb mid) = false := by
    rw [hc, hdb, Bool.or_false]
  unfold handleMessage
  simp only [hid]
  rw [if_neg hmid, hchk, if_neg Bool.false_ne_true, hself, if_pos rfl]

lemma handleMessage_noid_eval (ml cap : Nat) (bot : Option String) (g : GenOutcome)
    (mf : Bool) (m : ChatMessage) (s : BotState)
    (hid : m.id = none ∨ m.id = some "") :
    handleMessage ml cap bot g mf m s = ⟨s, [], []⟩ := by
  unfold handleMessage
  rcases hid with h | h
  · rw [h]
  · rw [h]
    simp

/-! ## Claim theorems -/

/-- C4: for every event ID and both kinds, marking processed twice with
the same ID never raises (the marking functions are total: the SQLite
error branch is caught and rolled back) and leaves exactly one record
for that ID in that kind's table — insert-if-absent, duplicate insert a
no-op.  The hypothesis is the table invariant maintained by the
`UNIQUE` column: at most one existing record per ID. -/
theorem c4_idempotent_marking (dbM : List MentionRecord) (dbG : List MessageRecord)
    (eid : String) (u1 n1 u2 n2 v1 w1 v2 w2 : Option String)
    (hM : mentionCount dbM eid ≤ 1) (hG : messageCount dbG eid ≤ 1) :
    mentionCount (markMentionProcessed (markMentionProcessed dbM eid u1 n1) eid u2 n2) eid = 1
    ∧ messageCount (markMessageProcessed (markMessageProcessed dbG eid v1 w1) eid v2 w2) eid = 1 := by
  constructor
  · rw [mentionCount_mark, mentionCount_mark]
    by_cases h : mentionCount dbM eid = 0
    · simp [h]
    · simp [h]
      omega
  · rw [messageCount_mark, messageCount_mark]
    by_cases h : messageCount dbG eid = 0
    · simp [h]
    · simp [h]
      omega

theorem c4_witness :
    (mentionCount [] "n1" ≤ 1 ∧ messageCount [] "n1" ≤ 1) ∧
    (mentionCount (markMentionProcessed (markMentionProcessed [] "n1" (some "u") (some "a"))
        "n1" (some "u") (some "a")) "n1" = 1
     ∧ messageCount (markMessageProcessed (markMessageProcessed [] "n1" (some "u") (some "private"))
        "n1" (some "u") (some "private")) "n1" = 1) :=
  ⟨⟨by decide, by decide⟩,
   c4_idempotent_marking [] [] "n1" (some "u") (some "a") (some "u") (some "a")
     (some "u") (some "private") (some "u") (some "private") (by decide) (by decide)⟩

/-- C6: an event that fails required-field validation — a mention
missing `user` or `text`, or any event with a missing/empty `id` — is
logged and dropped: the bot state is unchanged (nothing is marked
processed), no reply is sent, and nothing further is attempted (empty
trace, no retry). -/
theorem c6_validation_drop :
    (∀ (ml cap : Nat) (g : GenOutcome) (mf : Bool) (note : Note) (s : BotState) (nid : String),
      note.id = some nid → nid ≠ "" → (note.user = none ∨ note.text = none) →
      handleMention ml cap g mf note s = ⟨s, [], []⟩)
    ∧ (∀ (ml cap : Nat) (g : GenOutcome) (mf : Bool) (note : Note) (s : BotState),
        (note.id = none ∨ note.id = some "") →
        handleMention ml cap g mf note s = ⟨s, [], []⟩)
    ∧ (∀ (ml cap : Nat) (bot : Option String) (g : GenOutcome) (mf : Bool)
        (m : ChatMessage) (s : BotState),
        (m.id = none ∨ m.id = some "") →
        handleMessage ml cap bot g mf m s = ⟨s, [], []⟩) :=
  ⟨fun ml cap g mf note s _nid hid hnid hinv =>
      handleMention_invalid_eval ml cap g mf note s hid hnid hinv,
   fun ml cap g mf note s hid => handleMention_noid_eval ml cap g mf note s hid,
   fun ml cap bot g mf m s hid => handleMessage_noid_eval ml cap bot g mf m s hid⟩

theorem c6_witness :
    (invalidNote.id = some "n3" ∧ ("n3" : String) ≠ "" ∧ invalidNote.user = none
      ∧ noIdChatMessage.id = none) ∧
    handleMention 500 100 (.ok "Hi!".data) false invalidNote emptyBotState
      = ⟨emptyBotState, [], []⟩ ∧
    handleMessage 500 100 (some "bot1") (.ok "Hi!".data) false noIdChatMessage emptyBotState
      = ⟨emptyBotState, [], []⟩ :=
  ⟨⟨rfl, by decide, rfl, rfl⟩,
   c6_validation_drop.1 500 100 (.ok "Hi!".data) false invalidNote emptyBotState "n3"
     rfl (by decide) (Or.inl rfl),
   c6_validation_drop.2.2 500 100 (some "bot1") (.ok "Hi!".data) false noIdChatMessage
     emptyBotState (Or.inl rfl)⟩

/-- C8: while the bot is running, if the wall-clock date still equals
the tracked day and the daily counter has reached the configured
maximum, a scheduler firing of the auto-post job performs zero post
calls and leaves the state (counter included) unchanged; when the date
has advanced, the counter is reset — the tracked day becomes the
current date and the counter after the firing is at most 1. -/
theorem c8_daily_cap (cd : Int) (mp maxLen : Nat) (g : Option (List Char)) (ok : Bool)
    (st : AutoPostState) :
    (st.today = cd → mp ≤ st.postsToday → autoPost true cd mp g maxLen ok st = (st, 0))
    ∧ (st.today ≠ cd →
        (autoPost true cd mp g maxLen ok st).1.today = cd
        ∧ (autoPost true cd mp g maxLen ok st).1.postsToday ≤ 1) := by
  constructor
  · intro hday hcap
    have h1 : ¬ (cd ≠ st.today) := fun hne => hne hday.symm
    unfold autoPost
    simp only [Bool.not_true, Bool.false_eq_true, if_false]
    rw [if_neg h1]
    rw [if_pos hcap]
  · intro hday
    have hday' : cd ≠ st.today := Ne.symm hday
    unfold autoPost resetDailyPostCount
    simp only [Bool.not_true, Bool.false_eq_true, if_false]
    rw [if_pos hday']
    rcases g with _ | content
    · split_ifs <;> simp
    · split_ifs <;> simp

theorem c8_witness :
    ((⟨5, 10⟩ : AutoPostState).today = 10 ∧ 5 ≤ (⟨5, 10⟩ : AutoPostState).postsToday) ∧
    autoPost true 10 5 (some "post".data) 500 true ⟨5, 10⟩ = (⟨5, 10⟩, 0) :=
  ⟨⟨rfl, by decide⟩,
   (c8_daily_cap 10 5 500 (some "post".data) true ⟨5, 10⟩).1 rfl (by decide)⟩

/-- C9: a generated mention reply longer than the configured maximum is
delivered truncated to exactly `max_length` characters: the first
`max_length − 3` characters of the reply followed by the
three-character ellipsis marker `"..."` (the same `limitLength`
truncation is applied by the chat and auto-post paths). -/
theorem c9_truncation (ml cap : Nat) (reply : List Char) (note : Note) (s : BotState)
    (nid : String) (u : MisskeyUser) (tx : String)
    (hid : note.id = some nid) (hnid : nid ≠ "")
    (hu : note.user = some u) (ht : note.text = some tx)
    (hc : s.processedMentions.contains nid = false)
    (hcnt : mentionCount s.mentionsDb nid = 0)
    (hml : 3 ≤ ml) (hlong : ml < reply.length) :
    (handleMention ml cap (.ok reply) false note s).sent
      = [⟨limitLength reply ml, some nid⟩]
    ∧ limitLength reply ml = reply.take (ml - 3) ++ ellipsis
    ∧ (limitLength reply ml).length = ml
    ∧ ellipsis.length = 3 := by
  obtain ⟨heq, hlen⟩ := limitLength_spec reply ml hml hlong
  refine ⟨?_, heq, hlen, rfl⟩
  rw [handleMention_fresh_eval ml cap (.ok reply) false note s hid hnid hu ht hc hcnt]

set_option maxRecDepth 4000 in
theorem c9_witness :
    (3 ≤ 500 ∧ 500 < (List.replicate 600 'a').length) ∧
    (limitLength (List.replicate 600 'a') 500
        = (List.replicate 600 'a').take 497 ++ ellipsis
      ∧ (limitLength (List.replicate 600 'a') 500).length = 500) :=
  ⟨⟨by norm_num, by simp⟩,
   ⟨(c9_truncation 500 100 (List.replicate 600 'a') sampleNote emptyBotState "n1"
       ⟨some "u1", some "alice"⟩ "hello" rfl (by decide) rfl rfl rfl rfl
       (by norm_num) (by simp)).2.1,
    (c9_truncation 500 100 (List.replicate 600 'a') sampleNote emptyBotState "n1"
       ⟨some "u1", some "alice"⟩ "hello" rfl (by decide) rfl rfl rfl rfl
       (by norm_num) (by simp)).2.2.1⟩⟩

/-- C10 (implicit): when the durable-store insert inside
`mark_mention_processed` fails, the error is logged, the transaction is
rolled back, and the call returns normally without raising — so the
admission path continues: a reply is still generated and delivered,
while the durable table keeps no record of the event. -/
theorem c10_mark_failure_still_replies (ml cap : Nat) (g : GenOutcome) (note : Note)
    (s : BotState) (nid : String) (u : MisskeyUser) (tx : String)
    (hid : note.id = some nid) (hnid : nid ≠ "")
    (hu : note.user = some u) (ht : note.text = some tx)
    (hc : s.processedMentions.contains nid = false)
    (hcnt : mentionCount s.mentionsDb nid = 0) :
    (handleMention ml cap g true note s).state.mentionsDb = s.mentionsDb
    ∧ mentionCount (handleMention ml cap g true note s).state.mentionsDb nid = 0
    ∧ (handleMention ml cap g true note s).sent.length = 1
    ∧ (handleMention ml cap g true note s).trace
        = [.markDb, .appendCache, .generate, .deliver] := by
  rw [handleMention_fresh_eval ml cap g true note s hid hnid hu ht hc hcnt]
  refine ⟨rfl, hcnt, ?_, rfl⟩
  cases g <;> rfl

theorem c10_witness :
    (sampleNote.id = some "n1" ∧ ("n1" : String) ≠ ""
      ∧ sampleNote.user = some ⟨some "u1", some "alice"⟩ ∧ sampleNote.text = some "hello"
      ∧ emptyBotState.processedMentions.contains "n1" = false
      ∧ mentionCount emptyBotState.mentionsDb "n1" = 0) ∧
    ((handleMention 500 100 (.ok "Hi!".data) true sampleNote emptyBotState).state.mentionsDb
        = emptyBotState.mentionsDb
      ∧ (handleMention 500 100 (.ok "Hi!".data) true sampleNote emptyBotState).sent.length = 1) :=
  ⟨⟨rfl, by decide, rfl, rfl, rfl, rfl⟩,
   ⟨(c10_mark_failure_still_replies 500 100 (.ok "Hi!".data) sampleNote emptyBotState "n1"
       ⟨some "u1", some "alice"⟩ "hello" rfl (by decide) rfl rfl rfl rfl).1,
    (c10_mark_failure_still_replies 500 100 (.ok "Hi!".data) sampleNote emptyBotState "n1"
       ⟨some "u1", some "alice"⟩ "hello" rfl (by decide) rfl rfl rfl rfl).2.2.1⟩⟩

/-- C7 counterexample: the claim says the computed retry delays never
exceed the configured maximum delay, but the code applies the ±25%
jitter *after* clamping — with base 1, factor 2, max delay 60, attempt
6 and `random.random() = 0.9`, the computed delay is 72 > 60. -/
theorem c7_counterexample :
    ((0 : ℚ) ≤ 9/10 ∧ (9/10 : ℚ) < 1)
    ∧ calculateRetryDelay 1 2 60 6 (9/10) = 72
    ∧ (60 : ℚ) < calculateRetryDelay 1 2 60 6 (9/10) := by
  refine ⟨⟨by norm_num, by norm_num⟩, ?_, ?_⟩ <;>
    norm_num [calculateRetryDelay, clampedDelay, min_def, max_def]

/-- C7 (amended): the clamped pre-jitter delays
`min(base·factor^attempt, max_delay)` are non-decreasing in the attempt
index and never exceed `max_delay`; the actually slept delay applies
±25% jitter and a 0.1-second floor to that clamped value, so it is
bounded by `max(0.1, 1.25·max_delay)`; and the retry loop performs at
most `max_retries` attempts. -/
theorem c7_backoff_bounds (base factor maxD r : ℚ) (a b mr : Nat) (succeeds : Nat → Bool)
    (hbase : 0 ≤ base) (hfac : 1 ≤ factor) (hmax : 0 ≤ maxD)
    (_hr0 : 0 ≤ r) (hr1 : r < 1) (hab : a ≤ b) :
    clampedDelay base factor maxD a ≤ clampedDelay base factor maxD b
    ∧ clampedDelay base factor maxD a ≤ maxD
    ∧ calculateRetryDelay base factor maxD a r ≤ max (1/10) ((5/4) * maxD)
    ∧ retryAttempts 0 mr succeeds ≤ mr := by
  have hf0 : (0 : ℚ) ≤ factor := le_trans zero_le_one hfac
  have hpow : factor ^ a ≤ factor ^ b := pow_le_pow_right₀ hfac hab
  have hmono : clampedDelay base factor maxD a ≤ clampedDelay base factor maxD b := by
    unfold clampedDelay
    exact min_le_min (by nlinarith) le_rfl
  have hclamp : clampedDelay base factor maxD a ≤ maxD := min_le_right _ _
  have hd0 : 0 ≤ clampedDelay base factor maxD a :=
    le_min (mul_nonneg hbase (pow_nonneg hf0 a)) hmax
  refine ⟨hmono, hclamp, ?_, retryAttempts_le 0 mr succeeds⟩
  have hcalc : calculateRetryDelay base factor maxD a r
      = max (1/10) (clampedDelay base factor maxD a
          + clampedDelay base factor maxD a * (1/4) * (2 * r - 1)) := rfl
  rw [hcalc]
  refine max_le_max le_rfl ?_
  nlinarith [mul_nonneg hd0 (show (0 : ℚ) ≤ 2 - 2 * r by linarith)]

theorem c7_witness :
    ((0 : ℚ) ≤ 1 ∧ (1 : ℚ) ≤ 2 ∧ (0 : ℚ) ≤ 60 ∧ (0 : ℚ) ≤ 1/2 ∧ (1/2 : ℚ) < 1 ∧ 2 ≤ 5) ∧
    (clampedDelay 1 2 60 2 ≤ clampedDelay 1 2 60 5
      ∧ clampedDelay 1 2 60 2 ≤ 60
      ∧ calculateRetryDelay 1 2 60 2 (1/2) ≤ max (1/10) ((5/4) * 60)
      ∧ retryAttempts 0 3 (fun _ => false) ≤ 3) :=
  ⟨⟨by norm_num, by norm_num, by norm_num, by norm_num, by norm_num, by norm_num⟩,
   c7_backoff_bounds 1 2 60 (1/2) 2 5 3 (fun _ => false)
     (by norm_num) (by norm_num) (by norm_num) (by norm_num) (by norm_num) (by norm_num)⟩

/-- C3 counterexample: with two enabled plugins at priorities 10
(`"alpha"`, whose hook returns a `handled = true` result) and 5
(`"beta"`), `call_plugin_hook` still invokes the priority-5 plugin's
hook: the invocation list is `["alpha", "beta"]`, not `["alpha"]` —
there is no first-handled-wins short-circuit. -/
theorem c3_counterexample :
    pluginAlpha.enabled = true ∧ pluginBeta.enabled = true
    ∧ pluginAlpha.priority = 10 ∧ pluginBeta.priority = 5
    ∧ pluginAlpha.hookResult.map PluginResult.handled = some true
    ∧ (callPluginHook [pluginAlpha, pluginBeta]).1 = ["alpha", "beta"] := by
  decide

/-- C3 (amended): `call_plugin_hook` invokes the hook of *every*
enabled plugin in descending priority order, regardless of any
`handled = true` result, and returns all non-`None` results in that
order (higher-priority result first); the dispatcher itself delivers
no reply and does not short-circuit. -/
theorem c3_all_enabled_hooks_invoked (p q : Plugin) (r1 r2 : PluginResult)
    (hp : p.enabled = true) (hq : q.enabled = true) (hpq : q.priority < p.priority)
    (hr1 : p.hookResult = some r1) (hr2 : q.hookResult = some r2) :
    callPluginHook [p, q] = ([p.name, q.name], [r1, r2])
    ∧ callPluginHook [q, p] = ([p.name, q.name], [r1, r2]) := by
  have hnpq : ¬ p.priority < q.priority := lt_asymm hpq
  constructor <;>
    simp [callPluginHook, sortByPriorityDesc, insertByPriorityDesc, hp, hq, hpq, hnpq,
      hr1, hr2]

theorem c3_witness :
    (pluginAlpha.enabled = true ∧ pluginBeta.enabled = true
      ∧ pluginBeta.priority < pluginAlpha.priority
      ∧ pluginAlpha.hookResult = some ⟨true, some "A", "alpha"⟩
      ∧ pluginBeta.hookResult = some ⟨true, some "B", "beta"⟩) ∧
    callPluginHook [pluginBeta, pluginAlpha]
      = (["alpha", "beta"], [⟨true, some "A", "alpha"⟩, ⟨true, some "B", "beta"⟩]) :=
  ⟨⟨rfl, rfl, by decide, rfl, rfl⟩,
   (c3_all_enabled_hooks_invoked pluginAlpha pluginBeta ⟨true, some "A", "alpha"⟩
      ⟨true, some "B", "beta"⟩ rfl rfl (by decide) rfl rfl).2⟩

/-- C5 counterexample: the claim covers "every event (mention or direct
message)", but `_handle_mention` performs no self-author check at all —
a mention authored by the bot's own user id `"bot1"` is replied to (one
upstream reply call), while the same author on the chat path is
correctly skipped. -/
theorem c5_counterexample :
    botAuthoredNote.user = some ⟨some "bot1", some "bot"⟩
    ∧ (handleMention 500 100 (.ok "Hi!".data) false botAuthoredNote emptyBotState).sent.length = 1
    ∧ resolvedUserId selfChatMessage = some "bot1"
    ∧ (handleMessage 500 100 (some "bot1") (.ok "Hi!".data) false selfChatMessage
        emptyBotState).sent = [] := by
  decide

/-- C5 (amended): only the chat-message path has the self-loop guard: a
direct message whose resolved author id equals the bot's own (truthy)
id is marked processed (one durable record, cache appended) and
produces zero reply calls; mentions are not checked against the bot's
identity. -/
theorem c5_self_loop_message_only (ml cap : Nat) (b : String) (g : GenOutcome)
    (m : ChatMessage) (s : BotState) (mid : String)
    (hid : m.id = some mid) (hmid : mid ≠ "") (hb : b ≠ "")
    (huid : resolvedUserId m = some b)
    (hc : s.processedMessages.contains mid = false)
    (hcnt : messageCount s.messagesDb mid = 0) :
    (handleMessage ml cap (some b) g false m s).sent = []
    ∧ messageCount (handleMessage ml cap (some b) g false m s).state.messagesDb mid = 1
    ∧ (handleMessage ml cap (some b) g false m s).trace = [.markDb, .appendCache] := by
  have hself : (pyStrTruthy (some b) && (resolvedUserId m == some b)) = true := by
    rw [huid]
    simp [pyStrTruthy, hb]
  rw [handleMessage_self_eval ml cap (some b) g false m s hid hmid hself hc hcnt]
  refine ⟨rfl, ?_, rfl⟩
  show messageCount (markMessageProcessedF false s.messagesDb mid (resolvedUserId m)
    (some "private")) mid = 1
  show messageCount (markMessageProcessed s.messagesDb mid (resolvedUserId m)
    (some "private")) mid = 1
  rw [messageCount_mark]
  simp [hcnt]

theorem c5_witness :
    (selfChatMessage.id = some "m2" ∧ ("m2" : String) ≠ "" ∧ ("bot1" : String) ≠ ""
      ∧ resolvedUserId selfChatMessage = some "bot1"
      ∧ emptyBotState.processedMessages.contains "m2" = false
      ∧ messageCount emptyBotState.messagesDb "m2" = 0) ∧
    ((handleMessage 500 100 (some "bot1") (.ok "Hi!".data) false selfChatMessage
        emptyBotState).sent = []
      ∧ messageCount (handleMessage 500 100 (some "bot1") (.ok "Hi!".data) false
          selfChatMessage emptyBotState).state.messagesDb "m2" = 1) :=
  ⟨⟨rfl, by decide, by decide, by decide, rfl, rfl⟩,
   ⟨(c5_self_loop_message_only 500 100 "bot1" (.ok "Hi!".data) selfChatMessage
       emptyBotState "m2" rfl (by decide) (by decide) (by decide) rfl rfl).1,
    (c5_self_loop_message_only 500 100 "bot1" (.ok "Hi!".data) selfChatMessage
       emptyBotState "m2" rfl (by decide) (by decide) (by decide) rfl rfl).2.1⟩⟩

/-- C2 counterexample: with process-start time 100, `sampleNote` has
`createdAt = 0 < 100`, yet the handler delivers a reply (the claim says
such an event must never reach reply generation or delivery): there is
no replay-protection check in the code. -/
theorem c2_counterexample :
    sampleNote.createdAt = some 0 ∧ ((0 : Int) < 100)
    ∧ (handleMention 500 100 (.ok "Hi!".data) false sampleNote emptyBotState).sent.length = 1
    ∧ (handleMention 500 100 (.ok "Hi!".data) false sampleNote
        emptyBotState).trace.contains Act.deliver = true := by
  decide

/-- C2 (amended): the handlers never read `createdAt` — processing is
invariant under any change of the event's `createdAt`, so an event
older than process start is admitted, marked and dispatched exactly
like a fresh one (no replay protection exists). -/
theorem c2_no_replay_protection (ml cap : Nat) (g : GenOutcome) (mf : Bool) (s : BotState)
    (oid : Option String) (ouser : Option MisskeyUser) (otext : Option String)
    (t t' : Option Int) (bot : Option String)
    (mid otx oc ob ou1 ou2 ou3 ou4 : Option String)
    (ouser2 osender : Option MisskeyUser) (t2 t2' : Option Int) :
    handleMention ml cap g mf ⟨oid, ouser, otext, t⟩ s
      = handleMention ml cap g mf ⟨oid, ouser, otext, t'⟩ s
    ∧ handleMessage ml cap bot g mf ⟨mid, otx, oc, ob, ou1, ou2, ou3, ou4, ouser2, osender, t2⟩ s
      = handleMessage ml cap bot g mf ⟨mid, otx, oc, ob, ou1, ou2, ou3, ou4, ouser2, osender, t2'⟩ s :=
  ⟨rfl, rfl⟩

/-- C1: for every admitted event (mention or direct message), the
durable mark and the cache append happen before reply generation or
delivery is attempted (the handler trace is mark, append, generate,
deliver, in that order, and the handler's state change is exactly the
atomic admission segment's); and racing the same payload through the
streaming and the polling path — any interleaving of the two handler
instances' atomic segments — delivers at most one reply and leaves at
most one durable record, exactly one once both instances have
finished. -/
theorem c1_admission_precedes_reply_and_at_most_once :
    (∀ (ml cap : Nat) (g : GenOutcome) (note : Note) (s0 : BotState) (nid : String)
        (u : MisskeyUser) (tx : String),
      note.id = some nid → nid ≠ "" → note.user = some u → note.text = some tx →
      s0.processedMentions.contains nid = false → mentionCount s0.mentionsDb nid = 0 →
      ((handleMention ml cap g false note s0).trace
          = [.markDb, .appendCache, .generate, .deliver]
       ∧ (handleMention ml cap g false note s0).state = (admitMention false cap note s0).1
       ∧ ∀ sched : List Bool,
           (raceRun (admitMention false cap note) sched ⟨.start, .start, s0, 0⟩).d ≤ 1
           ∧ mentionCount (raceRun (admitMention false cap note) sched
               ⟨.start, .start, s0, 0⟩).s.mentionsDb nid ≤ 1
           ∧ ((raceRun (admitMention false cap note) sched ⟨.start, .start, s0, 0⟩).p1.isDone = true →
               (raceRun (admitMention false cap note) sched ⟨.start, .start, s0, 0⟩).p2.isDone = true →
               mentionCount (raceRun (admitMention false cap note) sched
                 ⟨.start, .start, s0, 0⟩).s.mentionsDb nid = 1)))
    ∧ (∀ (ml cap : Nat) (bot : Option String) (g : GenOutcome) (m : ChatMessage)
        (s0 : BotState) (mid : String),
      m.id = some mid → mid ≠ "" →
      (pyStrTruthy bot && (resolvedUserId m == bot)) = false →
      pyStrTruthy (resolvedUserId m) = true → pyStrTruthy (resolvedText m) = true →
      s0.processedMessages.contains mid = false → messageCount s0.messagesDb mid = 0 →
      ((handleMessage ml cap bot g false m s0).trace
          = .markDb :: .appendCache :: .generate ::
              (match g with | .ok _ => [Act.deliver] | _ => [])
       ∧ (handleMessage ml cap bot g false m s0).state = (admitMessage false cap bot m s0).1
       ∧ ∀ sched : List Bool,
           (raceRun (admitMessage false cap bot m) sched ⟨.start, .start, s0, 0⟩).d ≤ 1
           ∧ messageCount (raceRun (admitMessage false cap bot m) sched
               ⟨.start, .start, s0, 0⟩).s.messagesDb mid ≤ 1
           ∧ ((raceRun (admitMessage false cap bot m) sched ⟨.start, .start, s0, 0⟩).p1.isDone = true →
               (raceRun (admitMessage false cap bot m) sched ⟨.start, .start, s0, 0⟩).p2.isDone = true →
               messageCount (raceRun (admitMessage false cap bot m) sched
                 ⟨.start, .start, s0, 0⟩).s.messagesDb mid = 1))) := by
  constructor
  · intro ml cap g note s0 nid u tx hid hnid hu ht hc hcnt
    refine ⟨?_, (handleMention_state_eq ml cap g false note s0).1, ?_⟩
    · rw [handleMention_fresh_eval ml cap g false note s0 hid hnid hu ht hc hcnt]
    · have hfresh : ∀ st, ¬ mentionSeen nid st →
          ((admitMention false cap note st).2 = true
            ∧ mentionSeen nid (admitMention false cap note st).1
            ∧ mentionCount (admitMention false cap note st).1.mentionsDb nid = 1) :=
        fun st hP => admitMention_fresh hid hnid hu ht hP
      have hdup : ∀ st, mentionSeen nid st → admitMention false cap note st = (st, false) :=
        fun st hP => admitMention_dup hid hP
      have hP0 : ¬ mentionSeen nid s0 := by
        rintro (hx | hx)
        · rw [hc] at hx
          exact Bool.false_ne_true hx
        · exact hx hcnt
      have hinv0 : RaceInv (mentionSeen nid)
          (fun st => mentionCount st.mentionsDb nid = 1) Phase.start Phase.start s0 0 :=
        ⟨fun _ => ⟨rfl, rfl, rfl⟩, fun hP => absurd hP hP0,
         fun hw => by simp [Phase.winner] at hw, fun hw => by simp [Phase.winner] at hw,
         fun hw => by simp [Phase.winner] at hw, fun hP => absurd hP hP0, rfl⟩
      intro sched
      have hinv := raceInv_raceRun hfresh hdup sched
        (c := ⟨Phase.start, Phase.start, s0, 0⟩) hinv0
      have hcon := RaceInv.conclusions hinv
      refine ⟨hcon.1, ?_, fun h1 h2 => (hcon.2.2 h1 h2).2⟩
      by_cases hP : mentionSeen nid
          (raceRun (admitMention false cap note) sched ⟨Phase.start, Phase.start, s0, 0⟩).s
      · exact le_of_eq (hcon.2.1 hP)
      · have h0 : mentionCount (raceRun (admitMention false cap note) sched
            ⟨Phase.start, Phase.start, s0, 0⟩).s.mentionsDb nid = 0 := by
          by_contra hne
          exact hP (Or.inr hne)
        omega
  · intro ml cap bot g m s0 mid hid hmid hself huid htext hc hcnt
    refine ⟨?_, (handleMessage_state_eq ml cap bot g false m s0).1, ?_⟩
    · rw [handleMessage_fresh_eval ml cap bot g false m s0 hid hmid hself huid htext hc hcnt]
    · have hfresh : ∀ st, ¬ messageSeen mid st →
          ((admitMessage false cap bot m st).2 = true
            ∧ messageSeen mid (admitMessage false cap bot m st).1
            ∧ messageCount (admitMessage false cap bot m st).1.messagesDb mid = 1) :=
        fun st hP => admitMessage_fresh hid hmid hself huid htext hP
      have hdup : ∀ st, messageSeen mid st → admitMessage false cap bot m st = (st, false) :=
        fun st hP => admitMessage_dup hid hP
      have hP0 : ¬ messageSeen mid s0 := by
        rintro (hx | hx)
        · rw [hc] at hx
          exact Bool.false_ne_true hx
        · exact hx hcnt
      have hinv0 : RaceInv (messageSeen mid)
          (fun st => messageCount st.messagesDb mid = 1) Phase.start Phase.start s0 0 :=
        ⟨fun _ => ⟨rfl, rfl, rfl⟩, fun hP => absurd hP hP0,
         fun hw => by simp [Phase.winner] at hw, fun hw => by simp [Phase.winner] at hw,
         fun hw => by simp [Phase.winner] at hw, fun hP => absurd hP hP0, rfl⟩
      intro sched
      have hinv := raceInv_raceRun hfresh hdup sched
        (c := ⟨Phase.start, Phase.start, s0, 0⟩) hinv0
      have hcon := RaceInv.conclusions hinv
      refine ⟨hcon.1, ?_, fun h1 h2 => (hcon.2.2 h1 h2).2⟩
      by_cases hP : messageSeen mid
          (raceRun (admitMessage false cap bot m) sched ⟨Phase.start, Phase.start, s0, 0⟩).s
      · exact le_of_eq (hcon.2.1 hP)
      · have h0 : messageCount (raceRun (admitMessage false cap bot m) sched
            ⟨Phase.start, Phase.start, s0, 0⟩).s.messagesDb mid = 0 := by
          by_contra hne
          exact hP (Or.inr hne)
        omega

theorem c1_witness :
    (sampleNote.id = some "n1" ∧ ("n1" : String) ≠ ""
      ∧ sampleNote.user = some ⟨some "u1", some "alice"⟩ ∧ sampleNote.text = some "hello"
      ∧ emptyBotState.processedMentions.contains "n1" = false
      ∧ mentionCount emptyBotState.mentionsDb "n1" = 0
      ∧ sampleChatMessage.id = some "m1" ∧ ("m1" : String) ≠ ""
      ∧ (pyStrTruthy (some "bot1") && (resolvedUserId sampleChatMessage == some "bot1")) = false
      ∧ pyStrTruthy (resolvedUserId sampleChatMessage) = true
      ∧ pyStrTruthy (resolvedText sampleChatMessage) = true
      ∧ emptyBotState.processedMessages.contains "m1" = false
      ∧ messageCount emptyBotState.messagesDb "m1" = 0) ∧
    ((handleMention 500 100 (.ok "Hi!".data) false sampleNote emptyBotState).trace
        = [.markDb, .appendCache, .generate, .deliver]
      ∧ (raceRun (admitMention false 100 sampleNote) [true, false, true, false, true, false]
          ⟨.start, .start, emptyBotState, 0⟩).d ≤ 1) ∧
    ((handleMessage 500 100 (some "bot1") (.ok "Hi!".data) false sampleChatMessage
        emptyBotState).trace = [.markDb, .appendCache, .generate, .deliver]
      ∧ (raceRun (admitMessage false 100 (some "bot1") sampleChatMessage)
          [false, true, false, true, false, true]
          ⟨.start, .start, emptyBotState, 0⟩).d ≤ 1) :=
  ⟨⟨rfl, by decide, rfl, rfl, rfl, rfl, rfl, by decide, by decide, by decide, by decide,
    rfl, rfl⟩,
   ⟨(c1_admission_precedes_reply_and_at_most_once.1 500 100 (.ok "Hi!".data) sampleNote
       emptyBotState "n1" ⟨some "u1", some "alice"⟩ "hello" rfl (by decide) rfl rfl rfl rfl).1,
    ((c1_admission_precedes_reply_and_at_most_once.1 500 100 (.ok "Hi!".data) sampleNote
       emptyBotState "n1" ⟨some "u1", some "alice"⟩ "hello" rfl (by decide) rfl rfl rfl
       rfl).2.2 [true, false, true, false, true, false]).1⟩,
   ⟨(c1_admission_precedes_reply_and_at_most_once.2 500 100 (some "bot1") (.ok "Hi!".data)
       sampleChatMessage emptyBotState "m1" rfl (by decide) (by decide) (by decide)
       (by decide) rfl rfl).1,
    ((c1_admission_precedes_reply_and_at_most_once.2 500 100 (some "bot1") (.ok "Hi!".data)
       sampleChatMessage emptyBotState "m1" rfl (by decide) (by decide) (by decide)
       (by decide) rfl rfl).2.2 [false, true, false, true, false, true]).1⟩⟩
